import Mathlib

/-!
Verification of the indirect emissions modeller (`app.py`).

The numeric engine of the application is shallowly embedded here over `ℚ`:
Python floats become rationals, `int()` becomes truncation toward zero,
`np.floor` becomes `Int.floor`, `np.linspace` becomes an explicit arithmetic
progression, and Python list comprehensions over `range(n)` become
`List.replicate` (with negative counts giving the empty list, as `range` does).
Streamlit session state becomes an explicit record threaded through
`fn_Refresher`.  Random draws (`rng.choice`, `rng.integers`) are passed in as
explicit lists, and the one fallible operation (division by the session staff
total in the WFH heating block) is modelled with `Option`.
-/

namespace EmissionsModel

/-- Python `int()` on a rational: truncation toward zero. -/
def pyInt (q : ℚ) : ℤ := if 0 ≤ q then ⌊q⌋ else ⌈q⌉

/-- Length of a Python list comprehension `[x for y in range(int(q))]`:
negative counts give an empty range. -/
def pyCount (q : ℚ) : ℕ := (pyInt q).toNat

/-- `np.linspace start stop num endpoint` over rationals. -/
def linspace (lo hi : ℚ) (num : ℕ) (endpoint : Bool) : List ℚ :=
  (List.range num).map fun (i : ℕ) =>
    lo + (i : ℚ) * (hi - lo) / (if endpoint then (num : ℚ) - 1 else (num : ℚ))

/-- Round half to even, the tie-breaking rule used by `np.round`. -/
def roundHalfEven (q : ℚ) : ℤ :=
  if q - ⌊q⌋ < 1/2 then ⌊q⌋
  else if 1/2 < q - ⌊q⌋ then ⌊q⌋ + 1
  else if ⌊q⌋ % 2 = 0 then ⌊q⌋ else ⌊q⌋ + 1

/-- `np.round(q, 2)`. -/
def npRound2 (q : ℚ) : ℚ := (roundHalfEven (q * 100) : ℚ) / 100

/-- The bucket-fill loop shared by `fn_FormStaff` and `fn_FormCommute`:
`for ix, ix2 in enumerate(weights): group += [lims[ix] for y in range(int(scale * ix2))]`. -/
def fillBuckets (lims : List ℚ) (scale : ℚ) : List ℚ → ℕ → List ℚ
  | [], _ => []
  | p :: ps, ix =>
      List.replicate (pyCount (scale * p)) (lims.getD ix 0) ++ fillBuckets lims scale ps (ix + 1)

/-! ### Staffing model (`fn_FormStaff`) -/

/-- Configuration constants consumed by the staffing model. -/
structure StaffParams where
  MaxWorkDaysPerWeek : ℚ
  MaxWorkDaysPerYear : ℚ
  MaxHoursPerWeek : ℚ
  MinHoursPerWeek : ℚ

/-- `singleFtePerYear` as computed in `fn_FormStaff`. -/
def singleFtePerYear (p : StaffParams) (fteHoursPerWeek daysHoliday absenceDays : ℚ) : ℚ :=
  (fteHoursPerWeek / p.MaxWorkDaysPerWeek) * (p.MaxWorkDaysPerYear - daysHoliday - absenceDays)

/-- `part_time_num = int(np.floor(total_staff_num * part_time_pct))`. -/
def part_time_num (total_staff_num : ℕ) (part_time_pct : ℚ) : ℤ :=
  ⌊(total_staff_num : ℚ) * part_time_pct⌋

/-- `part_time_group_lims = np.linspace(MinHoursPerWeek, fteHoursPerWeek, num=5, endpoint=False)`. -/
def part_time_group_lims (p : StaffParams) (fteHoursPerWeek : ℚ) : List ℚ :=
  linspace p.MinHoursPerWeek fteHoursPerWeek 5 false

/-- The synthesized part-time population: the four proportional buckets
(0.1, 0.2, 0.4, 0.2 of `part_time_num`) followed by the remainder assigned to
`part_time_group_lims[4]`. -/
def part_time_group (p : StaffParams) (fteHoursPerWeek : ℚ) (ptn : ℤ) : List ℚ :=
  let lims := part_time_group_lims p fteHoursPerWeek
  let base := fillBuckets lims (ptn : ℚ) [1/10, 1/5, 2/5, 1/5] 0
  base ++ List.replicate (ptn - base.length).toNat (lims.getD 4 0)

/-- `total_staff_group`: full-time members at full-time weekly hours followed by
the synthesized part-time group. -/
def total_staff_group (p : StaffParams) (total_staff_num : ℕ)
    (part_time_pct fteHoursPerWeek : ℚ) : List ℚ :=
  let ptn := part_time_num total_staff_num part_time_pct
  List.replicate (((total_staff_num : ℤ) - ptn).toNat) fteHoursPerWeek
    ++ part_time_group p fteHoursPerWeek ptn

/-- Outputs of the staffing model. -/
structure StaffOut where
  singleFte : ℚ
  newFteTotal : ℚ
  newStaffTotal : ℚ
  newAbsenceRate : ℚ
  newTtlHrsPerYr : ℚ

/-- The numeric core of `fn_FormStaff`. -/
def fn_FormStaff (p : StaffParams) (total_staff_num : ℕ)
    (part_time_pct fteHoursPerWeek daysHoliday absenceDays : ℚ) : StaffOut :=
  let sf := singleFtePerYear p fteHoursPerWeek daysHoliday absenceDays
  let grp := total_staff_group p total_staff_num part_time_pct fteHoursPerWeek
  let newFteTotal := npRound2 (grp.sum / p.MaxHoursPerWeek)
  { singleFte := sf
    newFteTotal := newFteTotal
    newStaffTotal := (total_staff_num : ℚ)
    newAbsenceRate := sf / ((fteHoursPerWeek / p.MaxWorkDaysPerWeek) * p.MaxWorkDaysPerYear)
    newTtlHrsPerYr := sf * newFteTotal }

/-! ### Helper lemmas -/

theorem pyInt_of_nonneg {q : ℚ} (h : 0 ≤ q) : pyInt q = ⌊q⌋ := if_pos h

theorem pyCount_cast_of_nonneg {q : ℚ} (h : 0 ≤ q) : (pyCount q : ℤ) = ⌊q⌋ := by
  rw [pyCount, pyInt_of_nonneg h, Int.toNat_of_nonneg (Int.floor_nonneg.mpr h)]

theorem pyCount_le {q : ℚ} (h : 0 ≤ q) : ((pyCount q : ℕ) : ℚ) ≤ q := by
  have h2 : ((pyCount q : ℤ) : ℚ) ≤ q := by
    rw [pyCount_cast_of_nonneg h]; exact Int.floor_le q
  exact_mod_cast h2

theorem fillBuckets_length (lims : List ℚ) (s : ℚ) (ps : List ℚ) (ix : ℕ) :
    (fillBuckets lims s ps ix).length = (ps.map fun p => pyCount (s * p)).sum := by
  induction ps generalizing ix with
  | nil => rfl
  | cons p ps ih => simp [fillBuckets, ih]

theorem fillBuckets_mem {lims : List ℚ} {s d : ℚ} : ∀ {ps : List ℚ} {ix : ℕ},
    d ∈ fillBuckets lims s ps ix → ∃ j, ix ≤ j ∧ j < ix + ps.length ∧ d = lims.getD j 0 := by
  intro ps
  induction ps with
  | nil => intro ix h; simp [fillBuckets] at h
  | cons p ps ih =>
      intro ix h
      rw [fillBuckets, List.mem_append] at h
      rcases h with h | h
      · exact ⟨ix, le_refl ix, by simp, List.eq_of_mem_replicate h⟩
      · obtain ⟨j, hj1, hj2, hj3⟩ := ih h
        exact ⟨j, by omega, by simp; omega, hj3⟩

/-! ### Claim theorems for the staffing model -/

/-- Claim C6: for every headcount and every part-time fraction in `[0,1)`, the
population synthesized by `fn_FormStaff` has size exactly the headcount. -/
theorem total_staff_group_size (p : StaffParams) (n : ℕ) (pct ftw : ℚ)
    (h0 : 0 ≤ pct) (h1 : pct < 1) :
    (total_staff_group p n pct ftw).length = n := by
  have hn0 : (0 : ℚ) ≤ (n : ℚ) := Nat.cast_nonneg n
  have hptn0 : 0 ≤ part_time_num n pct :=
    Int.floor_nonneg.mpr (mul_nonneg hn0 h0)
  have hptnn : part_time_num n pct ≤ n := by
    have hle : (n : ℚ) * pct ≤ (n : ℚ) := mul_le_of_le_one_right hn0 h1.le
    calc part_time_num n pct ≤ ⌊(n : ℚ)⌋ := Int.floor_le_floor hle
    _ = n := Int.floor_natCast n
  have hq : (0 : ℚ) ≤ ((part_time_num n pct : ℤ) : ℚ) := by exact_mod_cast hptn0
  have hblq : (((fillBuckets (part_time_group_lims p ftw) ((part_time_num n pct : ℤ) : ℚ)
      [1/10, 1/5, 2/5, 1/5] 0).length : ℕ) : ℚ) ≤ ((part_time_num n pct : ℤ) : ℚ) := by
    rw [fillBuckets_length]
    simp only [List.map_cons, List.map_nil, List.sum_cons, List.sum_nil, add_zero]
    push_cast
    have g1 := pyCount_le (mul_nonneg hq (by norm_num : (0:ℚ) ≤ 1/10))
    have g2 := pyCount_le (mul_nonneg hq (by norm_num : (0:ℚ) ≤ 1/5))
    have g3 := pyCount_le (mul_nonneg hq (by norm_num : (0:ℚ) ≤ 2/5))
    linarith
  have hblptn : (((fillBuckets (part_time_group_lims p ftw) ((part_time_num n pct : ℤ) : ℚ)
      [1/10, 1/5, 2/5, 1/5] 0).length : ℕ) : ℤ) ≤ part_time_num n pct := by
    exact_mod_cast hblq
  simp only [total_staff_group, part_time_group, List.length_append, List.length_replicate]
  omega

/-- Claim C9 specification side: the spec formula for single-FTE hours per year. -/
def spec_single_fte_hours_per_year (p : StaffParams) (ftw hol ab : ℚ) : ℚ :=
  (ftw / p.MaxWorkDaysPerWeek) * (p.MaxWorkDaysPerYear - hol - ab)

/-- Claim C9 specification side: the staffing population as described in the
spec — full-time members at full-time weekly hours, part-timers placed into 5
evenly spaced hour buckets (top exclusive) at 10%/20%/40%/20%, with every
remaining part-timer assigned to the fifth bucket. -/
def spec_staff_population (p : StaffParams) (headcount : ℕ) (pct ftw : ℚ) : List ℚ :=
  let ptn : ℤ := ⌊(headcount : ℚ) * pct⌋
  let buckets := linspace p.MinHoursPerWeek ftw 5 false
  let placed :=
    List.replicate (pyCount ((ptn : ℚ) * (10/100))) (buckets.getD 0 0)
      ++ List.replicate (pyCount ((ptn : ℚ) * (20/100))) (buckets.getD 1 0)
      ++ List.replicate (pyCount ((ptn : ℚ) * (40/100))) (buckets.getD 2 0)
      ++ List.replicate (pyCount ((ptn : ℚ) * (20/100))) (buckets.getD 3 0)
  List.replicate (((headcount : ℤ) - ptn).toNat) ftw
    ++ (placed ++ List.replicate (ptn - placed.length).toNat (buckets.getD 4 0))

/-- Claim C9 specification side: total FTE. -/
def spec_total_fte (p : StaffParams) (headcount : ℕ) (pct ftw : ℚ) : ℚ :=
  npRound2 ((spec_staff_population p headcount pct ftw).sum / p.MaxHoursPerWeek)

/-- Claim C9 specification side: total staff-hours per year. -/
def spec_total_staff_hours (p : StaffParams) (headcount : ℕ) (pct ftw hol ab : ℚ) : ℚ :=
  spec_single_fte_hours_per_year p ftw hol ab * spec_total_fte p headcount pct ftw

theorem staff_population_eq (p : StaffParams) (n : ℕ) (pct ftw : ℚ) :
    total_staff_group p n pct ftw = spec_staff_population p n pct ftw := by
  rw [total_staff_group, spec_staff_population, part_time_group, part_time_num,
    part_time_group_lims]
  norm_num [fillBuckets]

/-- Claim C9: the staffing model outputs equal the spec formulas for single-FTE
hours per year, total FTE, and total staff-hours per year. -/
theorem fn_FormStaff_meets_spec (p : StaffParams) (n : ℕ) (pct ftw hol ab : ℚ) :
    (fn_FormStaff p n pct ftw hol ab).singleFte = spec_single_fte_hours_per_year p ftw hol ab
    ∧ (fn_FormStaff p n pct ftw hol ab).newFteTotal = spec_total_fte p n pct ftw
    ∧ (fn_FormStaff p n pct ftw hol ab).newTtlHrsPerYr
        = spec_total_staff_hours p n pct ftw hol ab := by
  refine ⟨rfl, ?_, ?_⟩
  · show npRound2 ((total_staff_group p n pct ftw).sum / p.MaxHoursPerWeek) = _
    rw [staff_population_eq, spec_total_fte]
  · show singleFtePerYear p ftw hol ab
        * npRound2 ((total_staff_group p n pct ftw).sum / p.MaxHoursPerWeek) = _
    rw [staff_population_eq, spec_total_staff_hours, spec_total_fte]
    rfl

/-- Witness for claim C6 at headcount 10, part-time fraction 1/4. -/
theorem total_staff_group_size_witness :
    (0 : ℚ) ≤ 1/4 ∧ (1/4 : ℚ) < 1
      ∧ (total_staff_group ⟨5, 250, 75/2, 16⟩ 10 (1/4) 35).length = 10 :=
  ⟨by norm_num, by norm_num,
    total_staff_group_size ⟨5, 250, 75/2, 16⟩ 10 (1/4) 35 (by norm_num) (by norm_num)⟩

/-! ### Commute model (`fn_FormCommute`) -/

/-- `distance_group_lims = np.linspace(min(sliderDistance), max(sliderDistance), num=20, endpoint=True)`. -/
def distance_group_lims (sliderLo sliderHi : ℚ) : List ℚ :=
  linspace (min sliderLo sliderHi) (max sliderLo sliderHi) 20 true

/-- The bucket-filled part of the commute distance population: the closeness
table (truncated by dropping its last two entries) scaled by the maximum of the
distance slider. -/
def commuteBase (sliderLo sliderHi : ℚ) (closeList : List ℚ) : List ℚ :=
  fillBuckets (distance_group_lims sliderLo sliderHi) (max sliderLo sliderHi)
    (closeList.take (closeList.length - 2)) 0

/-- `distance_group`: the bucket fill followed by the remainder
`[distance_group_lims[-1] for y in range(sessionStaffTotal - len(distance_group))]`. -/
def distance_group (sliderLo sliderHi : ℚ) (closeList : List ℚ) (sessionStaffTotal : ℤ) : List ℚ :=
  let base := commuteBase sliderLo sliderHi closeList
  base ++ List.replicate (sessionStaffTotal - base.length).toNat
    ((distance_group_lims sliderLo sliderHi).getD 19 0)

/-- `maxCommuteDistance = max(sliderDistance) * 4`. -/
def maxCommuteDistance (sliderLo sliderHi : ℚ) : ℚ := max sliderLo sliderHi * 4

/-- The per-person cap `d if d < maxCommuteDistance else maxCommuteDistance`. -/
def capCommute (mcd d : ℚ) : ℚ := if d < mcd then d else mcd

/-- `distanceCommute`: round-trip distances `d * 2 * sliderOfficeVisits`, capped. -/
def distanceCommute (sliderLo sliderHi : ℚ) (closeList : List ℚ)
    (sessionStaffTotal : ℤ) (sliderOfficeVisits : ℚ) : List ℚ :=
  (distance_group sliderLo sliderHi closeList sessionStaffTotal).map fun d =>
    capCommute (maxCommuteDistance sliderLo sliderHi) (d * 2 * sliderOfficeVisits)

/-- `newDistanceTotal = int(sum(distanceCommute))`. -/
def newDistanceTotal (sliderLo sliderHi : ℚ) (closeList : List ℚ)
    (sessionStaffTotal : ℤ) (sliderOfficeVisits : ℚ) : ℤ :=
  pyInt (distanceCommute sliderLo sliderHi closeList sessionStaffTotal sliderOfficeVisits).sum

/-- `walk_pct = min(sliderTransMix)`. -/
def walk_pct (mixLo mixHi : ℤ) : ℤ := min mixLo mixHi

/-- `car_pct = max(sliderTransMix) - min(sliderTransMix)`. -/
def car_pct (mixLo mixHi : ℤ) : ℤ := max mixLo mixHi - min mixLo mixHi

/-- `train_pct = int(100 - max(sliderTransMix) - bus_pct)`. -/
def train_pct (mixLo mixHi busPct : ℤ) : ℤ := 100 - max mixLo mixHi - busPct

/-- Conversion factors consumed by the transport emissions computation; the
petrol share is the region-specific `..._PetrolRatio` config constant. -/
structure TransportParams where
  petrolShare : ℚ
  CarPetrolConvFactor : ℚ
  CarDieselConvFactor : ℚ
  BusConvFactor : ℚ
  TrainConvFactor : ℚ

/-- `newEmissionsTransport` exactly as computed in `fn_FormCommute`: the
distance multiplied into each mode is the committed `sessionDistanceTotal`
read from session state at the start of the run. -/
def newEmissionsTransport (tp : TransportParams) (sessionDistanceTotal : ℚ)
    (mixLo mixHi busPct : ℤ) : ℚ :=
  let emissionsCar := sessionDistanceTotal * (car_pct mixLo mixHi : ℚ)
  let emissionsCarPetrol := emissionsCar * tp.petrolShare
  let emissionsCarDiesel := emissionsCar - emissionsCarPetrol
  emissionsCarPetrol * tp.CarPetrolConvFactor + emissionsCarDiesel * tp.CarDieselConvFactor
    + sessionDistanceTotal * (busPct : ℚ) * tp.BusConvFactor
    + sessionDistanceTotal * (train_pct mixLo mixHi busPct : ℚ) * tp.TrainConvFactor

/-- The spec formula for transport emissions applied to a given total distance:
petrol and diesel distance from the region petrol share, each multiplied by its
conversion factor, plus the bus and train terms. -/
def spec_transport_emissions (tp : TransportParams) (totalDistance : ℚ)
    (mixLo mixHi busPct : ℤ) : ℚ :=
  totalDistance * (car_pct mixLo mixHi : ℚ) * tp.petrolShare * tp.CarPetrolConvFactor
    + totalDistance * (car_pct mixLo mixHi : ℚ) * (1 - tp.petrolShare) * tp.CarDieselConvFactor
    + totalDistance * (busPct : ℚ) * tp.BusConvFactor
    + totalDistance * (train_pct mixLo mixHi busPct : ℚ) * tp.TrainConvFactor

/-- A concrete closeness table of the configured shape (22 bucket proportions,
of which the first 20 survive the truncation). -/
def sampleCloseList : List ℚ := [1/2, 3/10] ++ List.replicate 20 0

/-! ### Claim theorems for the commute model -/

theorem linspace_getD (lo hi : ℚ) (num : ℕ) (ep : Bool) (j : ℕ) (hj : j < num) :
    (linspace lo hi num ep).getD j 0
      = lo + j * (hi - lo) / (if ep then (num : ℚ) - 1 else (num : ℚ)) := by
  have hlen : j < (linspace lo hi num ep).length := by
    rw [linspace, List.length_map, List.length_range]; exact hj
  rw [List.getD_eq_getElem (linspace lo hi num ep) 0 hlen]
  simp only [linspace, List.getElem_map, List.getElem_range]

theorem linspace20_getD_bounds {lo hi : ℚ} (h : lo ≤ hi) {j : ℕ} (hj : j < 20) :
    lo ≤ (linspace lo hi 20 true).getD j 0 ∧ (linspace lo hi 20 true).getD j 0 ≤ hi := by
  rw [linspace_getD lo hi 20 true j hj]
  norm_num
  have hj19 : (j : ℚ) ≤ 19 := by exact_mod_cast Nat.le_of_lt_succ hj
  have hdnn : (0 : ℚ) ≤ hi - lo := sub_nonneg.mpr h
  constructor
  · have : 0 ≤ (j : ℚ) * (hi - lo) / 19 :=
      div_nonneg (mul_nonneg (Nat.cast_nonneg j) hdnn) (by norm_num)
    linarith
  · have : (j : ℚ) * (hi - lo) / 19 ≤ hi - lo := by
      rw [div_le_iff₀ (by norm_num : (0:ℚ) < 19)]
      nlinarith
    linarith

theorem distance_group_lims_eq {lo hi : ℚ} (h : lo ≤ hi) :
    distance_group_lims lo hi = linspace lo hi 20 true := by
  rw [distance_group_lims, min_eq_left h, max_eq_right h]

/-- Claim C1 (amended): the commute distance population always has size
`max(headcount, bucket-fill total)` — so exactly the headcount only when the
bucket-fill total `Σ int(max(range) * pᵢ)` does not exceed the headcount — and,
for any distance range with `min ≤ max` and a closeness table of the configured
shape, every synthesized value lies within `[min, max]`. -/
theorem distance_group_size_range (sliderLo sliderHi : ℚ) (closeList : List ℚ) (n : ℤ)
    (hle : sliderLo ≤ sliderHi) (hlen : closeList.length ≤ 22) :
    (((distance_group sliderLo sliderHi closeList n).length : ℤ)
        = max n ((commuteBase sliderLo sliderHi closeList).length : ℤ))
    ∧ (((commuteBase sliderLo sliderHi closeList).length : ℤ) ≤ n
        → ((distance_group sliderLo sliderHi closeList n).length : ℤ) = n)
    ∧ ∀ d ∈ distance_group sliderLo sliderHi closeList n, sliderLo ≤ d ∧ d ≤ sliderHi := by
  have hsize : ((distance_group sliderLo sliderHi closeList n).length : ℤ)
      = max n ((commuteBase sliderLo sliderHi closeList).length : ℤ) := by
    simp only [distance_group, List.length_append, List.length_replicate]
    omega
  refine ⟨hsize, fun hb => by omega, ?_⟩
  intro d hd
  rw [distance_group, List.mem_append] at hd
  have htake : (closeList.take (closeList.length - 2)).length ≤ 20 := by
    simp only [List.length_take]
    omega
  rcases hd with hd | hd
  · obtain ⟨j, hj0, hj1, hj2⟩ := fillBuckets_mem hd
    have hj20 : j < 20 := by omega
    rw [hj2, distance_group_lims_eq hle]
    exact linspace20_getD_bounds hle hj20
  · have hd19 := List.eq_of_mem_replicate hd
    rw [hd19, distance_group_lims_eq hle]
    exact linspace20_getD_bounds hle (by norm_num)

theorem sampleCloseList_take :
    sampleCloseList.take (sampleCloseList.length - 2) = 1/2 :: 3/10 :: List.replicate 18 0 := by
  have h : sampleCloseList.length = 22 := by simp [sampleCloseList]
  rw [h, sampleCloseList]
  show ([1/2, 3/10] ++ List.replicate 20 (0:ℚ)).take 20 = _
  rw [List.take_append_eq_append_take, List.take_of_length_le (by simp), List.take_replicate]
  simp

/-- Witness for claim C1 (amended) at range `[1, 10]`, headcount 3, and the
sample closeness table: the population size is the maximum of the headcount and
the bucket-fill total. -/
theorem distance_group_size_range_witness :
    (1 : ℚ) ≤ 10 ∧ sampleCloseList.length ≤ 22
      ∧ ((distance_group 1 10 sampleCloseList 3).length : ℤ)
          = max 3 ((commuteBase 1 10 sampleCloseList).length : ℤ) :=
  ⟨by norm_num, by simp [sampleCloseList],
    (distance_group_size_range 1 10 sampleCloseList 3 (by norm_num)
      (by simp [sampleCloseList])).1⟩

theorem commuteBase_1_100_length : (commuteBase 1 100 sampleCloseList).length = 80 := by
  rw [commuteBase, fillBuckets_length, sampleCloseList_take]
  norm_num [pyCount, pyInt]
  omega

/-- Counterexample to claim C1 as stated: with distance range `[1, 100]`,
headcount 10, and a closeness table assigning proportions 1/2 and 3/10, the
bucket counts scale with `max(range) = 100`, so the synthesized population has
80 members, not 10. -/
theorem distance_group_size_counterexample :
    (distance_group 1 100 sampleCloseList 10).length ≠ 10 := by
  simp only [distance_group, List.length_append, List.length_replicate,
    commuteBase_1_100_length]
  omega

/-- Claim C8: every capped round-trip commute distance synthesized by
`fn_FormCommute` is at most `max(distance_range) * 4`. -/
theorem distanceCommute_le_cap (sliderLo sliderHi : ℚ) (closeList : List ℚ)
    (n : ℤ) (visits : ℚ) :
    ∀ x ∈ distanceCommute sliderLo sliderHi closeList n visits,
      x ≤ maxCommuteDistance sliderLo sliderHi := by
  intro x hx
  rw [distanceCommute, List.mem_map] at hx
  obtain ⟨d, _, hd⟩ := hx
  rw [← hd, capCommute]
  split
  · exact le_of_lt (by assumption)
  · exact le_refl _

theorem mem_distanceCommute_40 : (40 : ℚ) ∈ distanceCommute 10 10 sampleCloseList 1 4 := by
  have h10 : (10 : ℚ) ∈ distance_group 10 10 sampleCloseList 1 := by
    rw [distance_group]
    apply List.mem_append_left
    rw [commuteBase, sampleCloseList_take]
    simp only [fillBuckets]
    apply List.mem_append_left
    apply List.mem_replicate.mpr
    refine ⟨by norm_num [pyCount, pyInt], ?_⟩
    rw [distance_group_lims_eq (le_refl (10:ℚ)), linspace_getD 10 10 20 true 0 (by norm_num)]
    norm_num
  rw [distanceCommute]
  refine List.mem_map.mpr ⟨10, h10, ?_⟩
  norm_num [capCommute, maxCommuteDistance]

/-- Witness for claim C8: at range `[10, 10]`, 4 office visits per month, the
capped distance 40 is synthesized and does not exceed `max(range) * 4 = 40`. -/
theorem distanceCommute_le_cap_witness :
    (40 : ℚ) ∈ distanceCommute 10 10 sampleCloseList 1 4
      ∧ (40 : ℚ) ≤ maxCommuteDistance 10 10 :=
  ⟨mem_distanceCommute_40,
    distanceCommute_le_cap 10 10 sampleCloseList 1 4 40 mem_distanceCommute_40⟩

/-- Claim C7: the four transport mode percentages always sum to exactly 100. -/
theorem mode_pcts_sum_100 (mixLo mixHi busPct : ℤ) :
    walk_pct mixLo mixHi + car_pct mixLo mixHi + busPct + train_pct mixLo mixHi busPct = 100 := by
  rw [walk_pct, car_pct, train_pct]
  omega

/-- Claim C10: within the sliders' enforced bounds every derived mode
percentage, including the subtraction-derived train percentage, is non-negative. -/
theorem mode_pcts_nonneg (mixLo mixHi busPct : ℤ)
    (h1 : 1 ≤ mixLo) (h2 : mixLo ≤ mixHi) (_h3 : mixHi ≤ 100)
    (h4 : 1 ≤ busPct) (h5 : busPct ≤ 100 - max mixLo mixHi) :
    0 ≤ walk_pct mixLo mixHi ∧ 0 ≤ car_pct mixLo mixHi ∧ 0 ≤ busPct
      ∧ 0 ≤ train_pct mixLo mixHi busPct := by
  rw [walk_pct, car_pct, train_pct]
  omega

/-- Witness for claim C10 at the default mix slider `(33, 67)` and bus slider 16. -/
theorem mode_pcts_nonneg_witness :
    (1 : ℤ) ≤ 33 ∧ (33 : ℤ) ≤ 67 ∧ (67 : ℤ) ≤ 100 ∧ (1 : ℤ) ≤ 16
      ∧ (16 : ℤ) ≤ 100 - max 33 67
      ∧ (0 ≤ walk_pct 33 67 ∧ 0 ≤ car_pct 33 67 ∧ (0:ℤ) ≤ 16 ∧ 0 ≤ train_pct 33 67 16) :=
  ⟨by norm_num, by norm_num, by norm_num, by norm_num, by norm_num,
    mode_pcts_nonneg 33 67 16 (by norm_num) (by norm_num) (by norm_num) (by norm_num)
      (by norm_num)⟩

/-- Claim C2 (amended): in every run, `fn_FormCommute`'s transport emissions
equal the spec's per-mode formula applied to the last-committed
`sessionDistanceTotal` read from session state — not to the distance total
synthesized by the same run. -/
theorem newEmissionsTransport_formula (tp : TransportParams) (s : ℚ)
    (mixLo mixHi busPct : ℤ) :
    newEmissionsTransport tp s mixLo mixHi busPct
      = spec_transport_emissions tp s mixLo mixHi busPct := by
  rw [newEmissionsTransport, spec_transport_emissions]
  ring

theorem commuteBase_10_eq :
    commuteBase 10 10 sampleCloseList = List.replicate 5 10 ++ List.replicate 3 10 := by
  have g0 : (distance_group_lims 10 10).getD 0 0 = 10 := by
    rw [distance_group_lims_eq (le_refl (10:ℚ)), linspace_getD 10 10 20 true 0 (by norm_num)]
    norm_num
  have g1 : (distance_group_lims 10 10).getD 1 0 = 10 := by
    rw [distance_group_lims_eq (le_refl (10:ℚ)), linspace_getD 10 10 20 true 1 (by norm_num)]
    norm_num
  rw [List.getD_eq_getElem?_getD] at g0 g1
  rw [commuteBase, sampleCloseList_take]
  simp only [fillBuckets]
  norm_num [pyCount, pyInt, g0, g1]
  omega

theorem distance_group_10_eq :
    distance_group 10 10 sampleCloseList 10
      = List.replicate 5 10 ++ List.replicate 3 10 ++ List.replicate 2 10 := by
  rw [distance_group]
  simp only [commuteBase_10_eq, List.length_append, List.length_replicate]
  have g19 : (distance_group_lims 10 10).getD 19 0 = 10 := by
    rw [distance_group_lims_eq (le_refl (10:ℚ)), linspace_getD 10 10 20 true 19 (by norm_num)]
    norm_num
  rw [g19]
  norm_num
  omega

theorem newDistanceTotal_10_eq : newDistanceTotal 10 10 sampleCloseList 10 4 = 400 := by
  rw [newDistanceTotal, distanceCommute, distance_group_10_eq]
  have hcap : capCommute (maxCommuteDistance 10 10) ((10:ℚ) * 2 * 4) = 40 := by
    norm_num [capCommute, maxCommuteDistance]
  simp only [List.map_append, List.map_replicate, hcap, List.sum_append, List.sum_replicate,
    smul_eq_mul]
  norm_num [pyInt]

/-- Counterexample to claim C2 as stated: a run whose committed
`sessionDistanceTotal` is 0 but whose own synthesized distance total is 400
produces 0 emissions, not the value of the spec formula at the distance
produced by that same run. -/
theorem newEmissionsTransport_same_run_counterexample :
    newEmissionsTransport ⟨1/2, 1, 1, 1, 1⟩ 0 33 67 16
      ≠ spec_transport_emissions ⟨1/2, 1, 1, 1, 1⟩
          ((newDistanceTotal 10 10 sampleCloseList 10 4 : ℤ) : ℚ) 33 67 16 := by
  rw [newDistanceTotal_10_eq]
  norm_num [newEmissionsTransport, spec_transport_emissions, car_pct, train_pct]

/-! ### WFH model (`fn_FormWfh`) -/

/-- Configuration constants consumed by the WFH model: the `ItOptions` device
factors, the electricity / lighting / heating allowances and conversion
factors, and the factors of the selected `ScreenOptions` in selection order. -/
structure WfhParams where
  laptopFactor : ℚ
  desktopMonitorFactor : ℚ
  mobilePhoneFactor : ℚ
  ElectricConvFactor : ℚ
  LightAllowance : ℚ
  HeatAllowance : ℚ
  HeatConvFactor : ℚ
  screenFactors : List ℚ

/-- Outputs of the WFH model. -/
structure WfhOut where
  newEmissionsIt : ℚ
  newEmissionsLight : ℚ
  newEmissionsHeat : ℚ
  newEmissionsWfh : ℚ

/-- The numeric core of `fn_FormWfh`.  The random draws (`rng.integers` for the
monitor options, `rng.choice` for the heating season / extent / sharing
scalars) are passed in as explicit lists.  The heating normalization divides by
`sessionStaffTotal`; as in the source, a zero staff total makes that division
fail (Python raises `ZeroDivisionError`), modelled here by `none`. -/
def fn_FormWfh (p : WfhParams) (sessionStaffTotalHoursPerYear sessionStaffOfficeRate : ℚ)
    (sessionStaffTotal : ℤ) (sliderLaptop sliderPhone : ℚ)
    (monitorDraws heatMonthsDraw heatHomeDraw heatShareDraw : List ℚ) : Option WfhOut :=
  let wfhHours := sessionStaffTotalHoursPerYear * (1 - sessionStaffOfficeRate)
  let numPhone := ⌊(sessionStaffTotal : ℚ) * sliderPhone⌋
  let phoneGroupRaw := p.mobilePhoneFactor * (numPhone : ℚ)
  let computerGroupRaw := wfhHours * sliderLaptop * p.laptopFactor
      + wfhHours * (1 - sliderLaptop) * p.desktopMonitorFactor
  let monitorGroupRaw := ((List.zip monitorDraws p.screenFactors).map
      fun df => wfhHours * (df.1 / 100) * df.2).sum
  let newEmissionsIt := (computerGroupRaw + phoneGroupRaw + monitorGroupRaw)
      * p.ElectricConvFactor
  let newEmissionsLight := p.ElectricConvFactor * wfhHours * p.LightAllowance * (1/2)
  if sessionStaffTotal = 0 then none
  else
    let heatGroup := List.zipWith (fun a b => a * b) heatMonthsDraw
      (List.zipWith (fun a b => a * b) heatHomeDraw heatShareDraw)
    let newEmissionsHeat := (heatGroup.sum / (sessionStaffTotal : ℚ)) * wfhHours
        * p.HeatAllowance * p.HeatConvFactor
    some
      { newEmissionsIt := newEmissionsIt
        newEmissionsLight := newEmissionsLight
        newEmissionsHeat := newEmissionsHeat
        newEmissionsWfh := newEmissionsIt + newEmissionsLight + newEmissionsHeat }

/-- Claim C3: contrary to the claim, at headcount 0 the WFH module does not
produce zero outputs — its heating normalization divides by the zero staff
total and the whole computation fails, for every parameter set, every slider
setting and every sequence of random draws. -/
theorem fn_FormWfh_zero_headcount (p : WfhParams) (hrs rate sliderLaptop sliderPhone : ℚ)
    (monitorDraws heatMonthsDraw heatHomeDraw heatShareDraw : List ℚ) :
    fn_FormWfh p hrs rate 0 sliderLaptop sliderPhone
      monitorDraws heatMonthsDraw heatHomeDraw heatShareDraw = none := by
  simp [fn_FormWfh]

/-! ### Session state and the confirm callback (`fn_Refresher`) -/

/-- The session-state fields written by the three modules and the aggregate. -/
inductive SField
  | fteTotal
  | staffTotal
  | staffAbsenceRate
  | staffTotalHoursPerYear
  | staffOfficeRate
  | distanceTotal
  | emissionsTransport
  | emissionsLight
  | emissionsIt
  | emissionsHeat
  | emissionsWfh
  | emissionsTotal
deriving DecidableEq

/-- Streamlit session state: the numeric fields plus the append-only log. -/
structure SessionState where
  sessionFteTotal : ℚ
  sessionStaffTotal : ℚ
  sessionStaffAbsenceRate : ℚ
  sessionStaffTotalHoursPerYear : ℚ
  sessionStaffOfficeRate : ℚ
  sessionDistanceTotal : ℚ
  sessionEmissionsTransport : ℚ
  sessionEmissionsLight : ℚ
  sessionEmissionsIt : ℚ
  sessionEmissionsHeat : ℚ
  sessionEmissionsWfh : ℚ
  sessionEmissionsTotal : ℚ
  sessionLog : List (List ℚ)

/-- `st.session_state[sessionObj[0]] = sessionObj[1]` for a single commit pair. -/
def setField (s : SessionState) : SField → ℚ → SessionState
  | .fteTotal, v => { s with sessionFteTotal := v }
  | .staffTotal, v => { s with sessionStaffTotal := v }
  | .staffAbsenceRate, v => { s with sessionStaffAbsenceRate := v }
  | .staffTotalHoursPerYear, v => { s with sessionStaffTotalHoursPerYear := v }
  | .staffOfficeRate, v => { s with sessionStaffOfficeRate := v }
  | .distanceTotal, v => { s with sessionDistanceTotal := v }
  | .emissionsTransport, v => { s with sessionEmissionsTransport := v }
  | .emissionsLight, v => { s with sessionEmissionsLight := v }
  | .emissionsIt, v => { s with sessionEmissionsIt := v }
  | .emissionsHeat, v => { s with sessionEmissionsHeat := v }
  | .emissionsWfh, v => { s with sessionEmissionsWfh := v }
  | .emissionsTotal, v => { s with sessionEmissionsTotal := v }

/-- The loop `for sessionObj in commit_obj: st.session_state[...] = ...`. -/
def commitAll (s : SessionState) (commit_obj : List (SField × ℚ)) : SessionState :=
  commit_obj.foldl (fun acc kv => setField acc kv.1 kv.2) s

/-- The confirm callback `fn_Refresher`: apply the commit list, recompute the
emissions total as transport + WFH, and append the five-field snapshot row to
the log. -/
def fn_Refresher (commit_obj : List (SField × ℚ)) (s : SessionState) : SessionState :=
  let s1 := commitAll s commit_obj
  let s2 := { s1 with sessionEmissionsTotal :=
      s1.sessionEmissionsTransport + s1.sessionEmissionsWfh }
  { s2 with sessionLog := s2.sessionLog ++
      [[s2.sessionFteTotal, s2.sessionDistanceTotal, s2.sessionEmissionsTransport,
        s2.sessionEmissionsWfh, s2.sessionEmissionsTotal]] }

/-- The commit list of the staffing module's confirm button. -/
def staffCommit (fte staff absRate hrsPerYr : ℚ) : List (SField × ℚ) :=
  [(.fteTotal, fte), (.staffTotal, staff), (.staffAbsenceRate, absRate),
    (.staffTotalHoursPerYear, hrsPerYr)]

/-- The commit list of the commute module's confirm button. -/
def commuteCommit (officeRate dist emTransport : ℚ) : List (SField × ℚ) :=
  [(.staffOfficeRate, officeRate), (.distanceTotal, dist), (.emissionsTransport, emTransport)]

/-- The commit list of the WFH module's confirm button. -/
def wfhCommit (light it heat wfh : ℚ) : List (SField × ℚ) :=
  [(.emissionsLight, light), (.emissionsIt, it), (.emissionsHeat, heat),
    (.emissionsWfh, wfh)]

theorem sessionLog_setField (s : SessionState) (k : SField) (v : ℚ) :
    (setField s k v).sessionLog = s.sessionLog := by
  cases k <;> rfl

theorem sessionLog_commitAll (commit_obj : List (SField × ℚ)) (s : SessionState) :
    (commitAll s commit_obj).sessionLog = s.sessionLog := by
  induction commit_obj generalizing s with
  | nil => rfl
  | cons kv tl ih =>
      rw [commitAll, List.foldl_cons]
      rw [show List.foldl (fun acc kv => setField acc kv.1 kv.2) (setField s kv.1 kv.2) tl
          = commitAll (setField s kv.1 kv.2) tl from rfl]
      rw [ih, sessionLog_setField]

/-- Claim C4: every confirmation appends exactly one new row to the log, the
row's five values are the five session aggregate fields at the moment of
confirmation, and the recorded total equals transport plus WFH emissions. -/
theorem fn_Refresher_appends_snapshot (commit_obj : List (SField × ℚ)) (s : SessionState) :
    (fn_Refresher commit_obj s).sessionLog
      = s.sessionLog ++
          [[(fn_Refresher commit_obj s).sessionFteTotal,
            (fn_Refresher commit_obj s).sessionDistanceTotal,
            (fn_Refresher commit_obj s).sessionEmissionsTransport,
            (fn_Refresher commit_obj s).sessionEmissionsWfh,
            (fn_Refresher commit_obj s).sessionEmissionsTotal]]
    ∧ (fn_Refresher commit_obj s).sessionEmissionsTotal
      = (fn_Refresher commit_obj s).sessionEmissionsTransport
          + (fn_Refresher commit_obj s).sessionEmissionsWfh := by
  constructor
  · rw [show (fn_Refresher commit_obj s).sessionLog
        = (commitAll s commit_obj).sessionLog ++
            [[(fn_Refresher commit_obj s).sessionFteTotal,
              (fn_Refresher commit_obj s).sessionDistanceTotal,
              (fn_Refresher commit_obj s).sessionEmissionsTransport,
              (fn_Refresher commit_obj s).sessionEmissionsWfh,
              (fn_Refresher commit_obj s).sessionEmissionsTotal]] from rfl]
    rw [sessionLog_commitAll]
  · rfl

/-- Claim C5: a confirmed commit updates only the confirmed module's fields —
after confirming any one module, every session field owned by a different
module still holds its previous value. -/
theorem fn_Refresher_frame (s : SessionState)
    (fte staff absRate hrsPerYr officeRate dist emTransport light it heat wfh : ℚ) :
    ((fn_Refresher (staffCommit fte staff absRate hrsPerYr) s).sessionStaffOfficeRate
        = s.sessionStaffOfficeRate
      ∧ (fn_Refresher (staffCommit fte staff absRate hrsPerYr) s).sessionDistanceTotal
        = s.sessionDistanceTotal
      ∧ (fn_Refresher (staffCommit fte staff absRate hrsPerYr) s).sessionEmissionsTransport
        = s.sessionEmissionsTransport
      ∧ (fn_Refresher (staffCommit fte staff absRate hrsPerYr) s).sessionEmissionsLight
        = s.sessionEmissionsLight
      ∧ (fn_Refresher (staffCommit fte staff absRate hrsPerYr) s).sessionEmissionsIt
        = s.sessionEmissionsIt
      ∧ (fn_Refresher (staffCommit fte staff absRate hrsPerYr) s).sessionEmissionsHeat
        = s.sessionEmissionsHeat
      ∧ (fn_Refresher (staffCommit fte staff absRate hrsPerYr) s).sessionEmissionsWfh
        = s.sessionEmissionsWfh)
    ∧ ((fn_Refresher (commuteCommit officeRate dist emTransport) s).sessionFteTotal
        = s.sessionFteTotal
      ∧ (fn_Refresher (commuteCommit officeRate dist emTransport) s).sessionStaffTotal
        = s.sessionStaffTotal
      ∧ (fn_Refresher (commuteCommit officeRate dist emTransport) s).sessionStaffAbsenceRate
        = s.sessionStaffAbsenceRate
      ∧ (fn_Refresher (commuteCommit officeRate dist emTransport) s).sessionStaffTotalHoursPerYear
        = s.sessionStaffTotalHoursPerYear
      ∧ (fn_Refresher (commuteCommit officeRate dist emTransport) s).sessionEmissionsLight
        = s.sessionEmissionsLight
      ∧ (fn_Refresher (commuteCommit officeRate dist emTransport) s).sessionEmissionsIt
        = s.sessionEmissionsIt
      ∧ (fn_Refresher (commuteCommit officeRate dist emTransport) s).sessionEmissionsHeat
        = s.sessionEmissionsHeat
      ∧ (fn_Refresher (commuteCommit officeRate dist emTransport) s).sessionEmissionsWfh
        = s.sessionEmissionsWfh)
    ∧ ((fn_Refresher (wfhCommit light it heat wfh) s).sessionFteTotal
        = s.sessionFteTotal
      ∧ (fn_Refresher (wfhCommit light it heat wfh) s).sessionStaffTotal
        = s.sessionStaffTotal
      ∧ (fn_Refresher (wfhCommit light it heat wfh) s).sessionStaffAbsenceRate
        = s.sessionStaffAbsenceRate
      ∧ (fn_Refresher (wfhCommit light it heat wfh) s).sessionStaffTotalHoursPerYear
        = s.sessionStaffTotalHoursPerYear
      ∧ (fn_Refresher (wfhCommit light it heat wfh) s).sessionStaffOfficeRate
        = s.sessionStaffOfficeRate
      ∧ (fn_Refresher (wfhCommit light it heat wfh) s).sessionDistanceTotal
        = s.sessionDistanceTotal
      ∧ (fn_Refresher (wfhCommit light it heat wfh) s).sessionEmissionsTransport
        = s.sessionEmissionsTransport) := by
  refine ⟨⟨?_, ?_, ?_, ?_, ?_, ?_, ?_⟩, ⟨?_, ?_, ?_, ?_, ?_, ?_, ?_, ?_⟩,
    ⟨?_, ?_, ?_, ?_, ?_, ?_, ?_⟩⟩ <;>
  simp [fn_Refresher, commitAll, setField, staffCommit, commuteCommit, wfhCommit]

end EmissionsModel
